import Mathlib

/-!
Verification of the research-paper-analyzer front-end client.

The client is a single-page upload-and-display application.  The top-level
component owns all mutable state (selected file, analysis result, loading
flag, error message, simulated upload progress, feature-panel visibility)
and exposes four operations: file validation and selection
(`validateAndSetFile`), analysis submission (`analyzeStart`, the simulated
progress timer `progressTick`, and request settlement `analyzeSettle`),
report download (`downloadPDF`), and reset (`resetApp`).  Two presentational
components (`renderResultsDashboard`, `renderEnhancedResults`) display the
structured result object returned by the backend.

Each definition below is a shallow embedding of the corresponding JavaScript
source.  JavaScript `undefined`-able fields become `Option`; a property
access on a missing object (a TypeError in JavaScript) becomes
`Except.error`; the asynchronous success/failure of a request becomes an
`Except` argument to the settlement function.
-/

/-- A file handle as seen by the client: name and byte size. -/
structure FileInfo where
  name : String
  size : Nat
deriving Repr, DecidableEq

/-! ## Result object

The analysis result is a structured object returned by the backend.  Every
top-level field the two display components read is modelled as an `Option`,
since the backend payload is untyped and fields may be absent. -/

/-- `file_info` sub-object: size in KB and file type string. -/
structure FileInfoData where
  size_kb : Nat
  type : String
deriving Repr, DecidableEq

/-- `statistics` sub-object. `estimated_pages` is compared against the
string sentinel "N/A" by the dashboard, so it is kept as a string. -/
structure Statistics where
  word_count : Nat
  estimated_pages : String
deriving Repr, DecidableEq

/-- An entry of `topic_classification.secondary_topics`. -/
structure SecondaryTopic where
  topic : String
  confidence : Nat
deriving Repr, DecidableEq

/-- `topic_classification` sub-object. -/
structure TopicClassification where
  primary_topic : String
  confidence : Nat
  secondary_topics : List SecondaryTopic
deriving Repr, DecidableEq

/-- An entry of `methodology_classification.secondary_methodologies`. -/
structure MethodItem where
  method : String
  confidence : Nat
deriving Repr, DecidableEq

/-- `methodology_classification` sub-object. -/
structure MethodologyClassification where
  primary_methodology : String
  confidence : Nat
  secondary_methodologies : List MethodItem
deriving Repr, DecidableEq

/-- `sentiment_analysis` sub-object. -/
structure SentimentAnalysis where
  sentiment : String
  academic_tone : String
  confidence : Nat
deriving Repr, DecidableEq

/-- `section_analysis` sub-object. -/
structure SectionAnalysis where
  total_sections : Nat
  sections_found : List String
deriving Repr, DecidableEq

/-- An entry of the `keywords` array. -/
structure Keyword where
  keyword : String
  relevance_score : Nat
deriving Repr, DecidableEq

/-- `contribution_type` sub-object. -/
structure ContributionType where
  contribution_type : String
  confidence : Nat
deriving Repr, DecidableEq

/-- `summary` sub-object.  `one_sentence` may carry the sentinel
"Summary generation failed"; `key_findings` may carry the sentinel
"Key findings not extracted" as its first element. -/
structure Summary where
  one_sentence : String
  executive_summary : String
  key_findings : Option (List String)
deriving Repr, DecidableEq

/-- `readability_analysis` sub-object; `error` is an optional error marker
(the display guard is JavaScript truthiness of `error`). -/
structure ReadabilityAnalysis where
  error : Option String
  flesch_reading_ease : Int
  interpretation : String
  academic_level : String
  average_grade_level : String
  average_sentence_length : String
  sentence_count : Nat
deriving Repr, DecidableEq

/-- An entry of `citations_analysis.top_authors`. -/
structure AuthorCount where
  author : String
  count : Nat
deriving Repr, DecidableEq

/-- `citations_analysis` sub-object. -/
structure CitationsAnalysis where
  total_references : Nat
  citation_style : String
  top_authors : Option (List AuthorCount)
deriving Repr, DecidableEq

/-- `research_questions` sub-object; each list may carry the sentinel
"Not explicitly stated" as its first element. -/
structure ResearchQuestions where
  research_questions : Option (List String)
  hypotheses : Option (List String)
  objectives : Option (List String)
deriving Repr, DecidableEq

/-- `quality_score` sub-object; `component_scores` is an optional map,
read through `|| \x7b\x7d` in the source. -/
structure QualityScore where
  overall_score : Nat
  rating : String
  component_scores : Option (List (String × Nat))
deriving Repr, DecidableEq

/-- The full analysis result object.  Every field either display component
destructures is present here; all are optional because the payload is an
untyped backend response. -/
structure ResultData where
  filename : String
  file_info : Option FileInfoData
  statistics : Option Statistics
  topic_classification : Option TopicClassification
  methodology_classification : Option MethodologyClassification
  sentiment_analysis : Option SentimentAnalysis
  section_analysis : Option SectionAnalysis
  keywords : Option (List Keyword)
  named_entities : Option (List (String × List String))
  contribution_type : Option ContributionType
  summary : Option Summary
  readability_analysis : Option ReadabilityAnalysis
  citations_analysis : Option CitationsAnalysis
  research_questions : Option ResearchQuestions
  quality_score : Option QualityScore
  processing_time : Nat
deriving Repr, DecidableEq

/-! ## Top-level application state

The `App` component owns: `file`, `results`, `loading`, `error`,
`uploadProgress`, `showFeatures`, `isDragging`. -/

/-- The mutable state held by the top-level `App` component. -/
structure AppState where
  file : Option FileInfo
  results : Option ResultData
  loading : Bool
  error : Option String
  uploadProgress : Nat
  showFeatures : Bool
  isDragging : Bool
deriving Repr, DecidableEq

/-- The initial state of the application (the `useState` initial values). -/
def initialAppState : AppState :=
  { file := none
    results := none
    loading := false
    error := none
    uploadProgress := 0
    showFeatures := true
    isDragging := false }

/-! ## File validation (`validateAndSetFile`)

The source computes the extension as
`'.' + selectedFile.name.split('.').pop().toLowerCase()` — a dot prepended
to the lowercased text after the final dot of the name (the whole name when
no dot occurs).  It then checks membership in the allow-list and the size
bound, setting only an error message on violation, and storing the file
(clearing error/results, hiding the feature panel) on success. -/

/-- `toLowerCase()`: lowercase every character of the string. -/
def toLowerStr (s : String) : String :=
  ⟨s.data.map Char.toLower⟩

/-- The text after the final dot of a string, or the whole string when it
contains no dot.  This is what `name.split('.').pop()` yields. -/
def lastComponent (s : String) : String :=
  ⟨(s.data.reverse.takeWhile (fun c => c ≠ '.')).reverse⟩

/-- The client-side extension of a file name:
`'.' + name.split('.').pop().toLowerCase()`. -/
def fileExtension (name : String) : String :=
  "." ++ toLowerStr (lastComponent name)

/-- The extension allow-list from the source. -/
def allowedTypes : List String := [".pdf", ".docx", ".txt"]

/-- The size bound from the source: `50 * 1024 * 1024` bytes. -/
def maxSize : Nat := 50 * 1024 * 1024

/-- The invalid-extension error message from the source. -/
def invalidTypeMsg : String :=
  "Invalid file type. Please upload PDF, DOCX, or TXT files."

/-- The oversized-file error message from the source. -/
def oversizedMsg : String := "File too large. Maximum size is 50MB."

/-- `validateAndSetFile`: reject on a disallowed extension, then on an
oversized file, setting only the error message; otherwise store the file,
clear error and results, and hide the feature panel. -/
def validateAndSetFile (selectedFile : FileInfo) (s : AppState) : AppState :=
  let ext := fileExtension selectedFile.name
  if ext ∉ allowedTypes then
    { s with error := some invalidTypeMsg }
  else if selectedFile.size > maxSize then
    { s with error := some oversizedMsg }
  else
    { s with file := some selectedFile
             error := none
             results := none
             showFeatures := false }

/-- `resetApp`: clear file, results, error and progress and restore the
feature showcase panel. -/
def resetApp (s : AppState) : AppState :=
  { s with file := none
           results := none
           error := none
           uploadProgress := 0
           showFeatures := true }

/-! ## Analysis submission (`analyzeDocument`)

The submission sets `loading`, clears `error`, zeroes `uploadProgress`, and
starts a 300 ms interval timer.  Each timer callback reads the previous
progress: at 90 or more it clears its own interval and returns 90,
otherwise it adds 10.  When the awaited request resolves, the success path
clears the interval, sets progress to 100, and stores the result; the
failure path (the `catch` block) sets the error message from the backend
`detail` when that is a truthy string, else a generic message — it does not
clear the interval.  The `finally` block clears `loading` on both paths.

We model the pair (app state, whether the interval is still scheduled) and
the settlement as a list of the state updates the source performs, applied
in source order. -/

/-- The app state together with whether the simulated-progress interval
timer is still scheduled. -/
structure TimedState where
  app : AppState
  timerActive : Bool
deriving Repr, DecidableEq

/-- One state update performed by the `App` component's handlers. -/
inductive UpdateEvent where
  | setFile (f : Option FileInfo)
  | setResults (r : Option ResultData)
  | setLoading (b : Bool)
  | setError (e : Option String)
  | setProgress (n : Nat)
  | setShowFeatures (b : Bool)
  | clearTimer
deriving Repr, DecidableEq

/-- Apply one state update. -/
def applyEvent (s : TimedState) (e : UpdateEvent) : TimedState :=
  match e with
  | .setFile f => { s with app := { s.app with file := f } }
  | .setResults r => { s with app := { s.app with results := r } }
  | .setLoading b => { s with app := { s.app with loading := b } }
  | .setError e => { s with app := { s.app with error := e } }
  | .setProgress n => { s with app := { s.app with uploadProgress := n } }
  | .setShowFeatures b => { s with app := { s.app with showFeatures := b } }
  | .clearTimer => { s with timerActive := false }

/-- Apply a list of state updates in order. -/
def applyEvents (es : List UpdateEvent) (s : TimedState) : TimedState :=
  es.foldl applyEvent s

/-- The start of `analyzeDocument` (before the `await`): set `loading`,
clear `error`, zero the progress, and schedule the interval timer. -/
def analyzeStart (s : TimedState) : TimedState :=
  { app := { s.app with loading := true, error := none, uploadProgress := 0 }
    timerActive := true }

/-- One firing of the simulated-progress interval callback: at progress 90
or more, clear the interval and hold at 90; otherwise add 10.  A cleared
timer fires no more. -/
def progressTick (s : TimedState) : TimedState :=
  if s.timerActive then
    if s.app.uploadProgress ≥ 90 then
      { app := { s.app with uploadProgress := 90 }, timerActive := false }
    else
      { s with app := { s.app with uploadProgress := s.app.uploadProgress + 10 } }
  else s

/-- The generic analysis failure message from the source. -/
def genericFailureMsg : String := "Analysis failed. Please try again."

/-- `err.response?.data?.detail || 'Analysis failed. Please try again.'`:
the backend detail when it is a present, non-empty (truthy) string, else
the generic message. -/
def analysisErrorMessage (detail : Option String) : String :=
  match detail with
  | some d => if d = "" then genericFailureMsg else d
  | none => genericFailureMsg

/-- The state updates of the success path in source order: clear the
interval, set progress to 100, store the result, then (`finally`) clear
`loading`. -/
def successEvents (data : ResultData) : List UpdateEvent :=
  [.clearTimer, .setProgress 100, .setResults (some data), .setLoading false]

/-- The updates of the success path that precede the storing of the
result. -/
def preResultEvents : List UpdateEvent :=
  [.clearTimer, .setProgress 100]

/-- The state updates of the failure path (the `catch` block, then
`finally`) in source order: set the error message, clear `loading`.  The
interval is not cleared here. -/
def failureEvents (detail : Option String) : List UpdateEvent :=
  [.setError (some (analysisErrorMessage detail)), .setLoading false]

/-- Settlement of the analysis request: the success path on `.ok` with the
response payload, the failure path on `.error` with the optional backend
`detail`. -/
def analyzeSettle (resp : Except (Option String) ResultData)
    (s : TimedState) : TimedState :=
  match resp with
  | .ok data => applyEvents (successEvents data) s
  | .error detail => applyEvents (failureEvents detail) s

/-! ## Report download (`downloadPDF`)

The handler sets a busy flag, posts the result object, and then: a non-ok
response throws with the server text; a zero-byte blob throws
"Generated PDF is empty"; otherwise it creates exactly one anchor element
with download name `analysis_report_` + the upload name with its final
extension stripped + `.pdf`, clicks it, and alerts success.  The `catch`
block alerts `Failed to download PDF: ` + the thrown message; `finally`
clears the busy flag. -/

/-- The response observed by `downloadPDF`: HTTP ok flag, status code, the
body text read on error, and the byte size of the returned blob. -/
structure DownloadResponse where
  ok : Bool
  status : Nat
  bodyText : String
  blobSize : Nat
deriving Repr, DecidableEq

/-- The observable outcome of one `downloadPDF` call: the list of browser
save actions triggered (the download file names, in order), the alert
message shown, and the busy flag when the handler completes. -/
structure DownloadOutcome where
  saves : List String
  alertMsg : String
  downloading : Bool
deriving Repr, DecidableEq

/-- The effect of `filename.replace(/\.[^/.]+$/, '')`: strip a final
`.<chars>` suffix in which the chars are one or more characters none of
which is a dot or a slash; otherwise leave the name unchanged. -/
def stripExt (s : String) : String :=
  let rev := s.data.reverse
  let suffix := rev.takeWhile (fun c => c ≠ '.' ∧ c ≠ '/')
  match rev.drop suffix.length with
  | '.' :: rest => if suffix.length > 0 then ⟨rest.reverse⟩ else s
  | _ => s

/-- The download file name: `analysis_report_<base name>.pdf`. -/
def reportFileName (filename : String) : String :=
  "analysis_report_" ++ stripExt filename ++ ".pdf"

/-- The `try` block of `downloadPDF`: an `Except.error` models a thrown
`Error` (its message), an `Except.ok` carries the save actions and the
success alert. -/
def downloadPDFBody (filename : String) (resp : DownloadResponse) :
    Except String (List String × String) :=
  if ¬ resp.ok then
    .error ("Server returned " ++ toString resp.status ++ ": " ++ resp.bodyText)
  else if resp.blobSize = 0 then
    .error "Generated PDF is empty"
  else
    .ok ([reportFileName filename], "PDF report downloaded successfully!")

/-- The whole `downloadPDF` handler: run the `try` block; on a thrown
error, alert the failure message and save nothing; the busy flag is
cleared in `finally` on both paths. -/
def downloadPDF (filename : String) (resp : DownloadResponse) :
    DownloadOutcome :=
  match downloadPDFBody filename resp with
  | .ok (saves, msg) =>
      { saves := saves, alertMsg := msg, downloading := false }
  | .error emsg =>
      { saves := []
        alertMsg := "Failed to download PDF: " ++ emsg
        downloading := false }

/-! ## Result rendering

`EnhancedResults` destructures `summary`, `readability_analysis`,
`citations_analysis`, `research_questions`, `quality_score` and guards every
section on presence / sentinel checks, so it never dereferences a missing
field: its rendering is a total function.  `ResultsDashboard` destructures
the remaining fields and dereferences `statistics`, `file_info`,
`topic_classification`, `contribution_type`,
`methodology_classification`, `sentiment_analysis`, `section_analysis`,
`keywords` and `named_entities` unconditionally (for `named_entities`
through `Object.keys`), so a missing one raises a TypeError; that is
modelled as `Except.error`.  Rendered sections are recorded as tag
strings. -/

/-- The sentinel `summary.one_sentence` value checked by the source. -/
def summaryFailedSentinel : String := "Summary generation failed"

/-- The sentinel first element of `summary.key_findings`. -/
def keyFindingsSentinel : String := "Key findings not extracted"

/-- The sentinel first element of the `research_questions` lists. -/
def notStatedSentinel : String := "Not explicitly stated"

/-- JavaScript truthiness of an optional string (`undefined`, `""` are
falsy). -/
def truthyStr : Option String → Bool
  | none => false
  | some s => s ≠ ""

/-- The guard `xs && xs[0] !== sentinel`: the list is present and its
first element (if any) is not the sentinel. -/
def presentNotSentinel (xs : Option (List String)) (sentinel : String) : Bool :=
  match xs with
  | none => false
  | some l => l.head? ≠ some sentinel

/-- Rendering of `EnhancedResults`: the list of section tags produced.
Every access is guarded in the source, so this is total. -/
def renderEnhancedResults (r : ResultData) : List String :=
  (match r.quality_score with
   | some _ => ["quality_score"]
   | none => []) ++
  (match r.summary with
   | some sm =>
       if sm.one_sentence ≠ summaryFailedSentinel then
         ["summary"] ++
         (if presentNotSentinel sm.key_findings keyFindingsSentinel then
            ["key_findings"]
          else [])
       else []
   | none => []) ++
  (match r.readability_analysis with
   | some ra =>
       if ¬ truthyStr ra.error then ["readability"] else []
   | none => []) ++
  (match r.citations_analysis with
   | some ca =>
       if ca.total_references > 0 then
         ["citations"] ++
         (match ca.top_authors with
          | some authors => if authors.length > 0 then ["top_authors"] else []
          | none => [])
       else []
   | none => []) ++
  (match r.research_questions with
   | some rq =>
       ["research_questions"] ++
       (if presentNotSentinel rq.research_questions notStatedSentinel then
          ["questions_list"]
        else []) ++
       (if presentNotSentinel rq.hypotheses notStatedSentinel then
          ["hypotheses"]
        else []) ++
       (if presentNotSentinel rq.objectives notStatedSentinel then
          ["objectives"]
        else [])
   | none => [])

/-- A property access on a possibly-missing object: a present value, or
the TypeError JavaScript raises on `undefined.<field>`. -/
def require (o : Option α) (fieldName : String) : Except String α :=
  match o with
  | some v => .ok v
  | none => .error ("TypeError: cannot read properties of undefined: " ++ fieldName)

/-- Rendering of `ResultsDashboard` (which embeds `EnhancedResults` after
the statistics row): the section tags produced, or the TypeError raised at
the first unconditional dereference of a missing field, in source order. -/
def renderResultsDashboard (r : ResultData) : Except String (List String) := do
  let stats ← require r.statistics "statistics"
  let fi ← require r.file_info "file_info"
  let tc ← require r.topic_classification "topic_classification"
  let ct ← require r.contribution_type "contribution_type"
  let mc ← require r.methodology_classification "methodology_classification"
  let sa ← require r.sentiment_analysis "sentiment_analysis"
  let sec ← require r.section_analysis "section_analysis"
  let kws ← require r.keywords "keywords"
  let ne ← require r.named_entities "named_entities"
  pure
    (["header", "word_count", "file_size:" ++ toString fi.size_kb,
      "file_type:" ++ fi.type.toUpper] ++
     (if stats.estimated_pages ≠ "N/A" then ["pages"] else []) ++
     renderEnhancedResults r ++
     ["topic:" ++ tc.primary_topic] ++
     (tc.secondary_topics.map (fun t => "secondary_topic:" ++ t.topic)) ++
     ["contribution:" ++ ct.contribution_type] ++
     ["methodology:" ++ mc.primary_methodology] ++
     (mc.secondary_methodologies.map (fun m => "method:" ++ m.method)) ++
     ["sentiment:" ++ sa.sentiment] ++
     ["sections:" ++ toString sec.total_sections] ++
     (sec.sections_found.map (fun n => "section:" ++ n)) ++
     ((kws.take 12).map (fun k => "keyword:" ++ k.keyword)) ++
     (if ne.length > 0 then ["entities"] else []))

/-- `Bool`-valued success of a rendering attempt. -/
def rendersOk (e : Except String (List String)) : Bool :=
  match e with
  | .ok _ => true
  | .error _ => false

/-- A fully-populated analysis result, used to evaluate the rendering
functions at concrete inputs. -/
def sampleResult : ResultData :=
  { filename := "paper.pdf"
    file_info := some ⟨42, "pdf"⟩
    statistics := some ⟨5000, "12"⟩
    topic_classification := some ⟨"Machine Learning", 93, [⟨"NLP", 61⟩]⟩
    methodology_classification := some ⟨"Experimental", 88, [⟨"Quantitative", 55⟩]⟩
    sentiment_analysis := some ⟨"Neutral", "Formal", 80⟩
    section_analysis := some ⟨5, ["abstract", "introduction"]⟩
    keywords := some [⟨"transformers", 97⟩]
    named_entities := some [("ORG", ["ACL"])]
    contribution_type := some ⟨"Novel Method", 75⟩
    summary := some ⟨"A study of transformers.", "An executive summary.",
      some ["Finding one"]⟩
    readability_analysis := some ⟨none, 32, "Difficult", "Graduate", "16",
      "24", 210⟩
    citations_analysis := some ⟨40, "APA", some [⟨"Smith", 6⟩]⟩
    research_questions := some ⟨some ["What improves accuracy?"],
      some ["H1"], some ["O1"]⟩
    quality_score := some ⟨82, "Very Good", some [("structure", 90)]⟩
    processing_time := 3 }

/-! ## Helper lemmas -/

/-- `split('.').pop()` of a dotless name is the whole name. -/
theorem lastComponent_of_no_dot (s : String) (h : '.' ∉ s.data) :
    lastComponent s = s := by
  unfold lastComponent
  have hall : ∀ c ∈ s.data.reverse, decide (c ≠ '.') = true := by
    intro c hc
    rw [decide_eq_true_eq]
    intro hceq
    exact h (hceq ▸ List.mem_reverse.1 hc)
  rw [List.takeWhile_eq_self_iff.2 hall, List.reverse_reverse]

/-- Appending behind a fixed dot is injective on strings. -/
theorem dot_append_inj (x y : String) : "." ++ x = "." ++ y ↔ x = y := by
  constructor
  · intro h
    have hd := String.ext_iff.1 h
    rw [String.data_append, String.data_append] at hd
    exact String.ext (List.append_cancel_left hd)
  · intro h
    rw [h]

/-- Membership of a dot-prefixed string in the allow-list, in terms of the
bare lowercased name. -/
theorem dot_append_mem_allowedTypes (x : String) :
    "." ++ x ∈ allowedTypes ↔ x ∈ ["pdf", "docx", "txt"] := by
  have hpdf : (".pdf" : String) = "." ++ "pdf" := by decide
  have hdocx : (".docx" : String) = "." ++ "docx" := by decide
  have htxt : (".txt" : String) = "." ++ "txt" := by decide
  unfold allowedTypes
  simp only [List.mem_cons, List.not_mem_nil, or_false, hpdf, hdocx, htxt,
    dot_append_inj]

/-! ## C9: reset -/

/-- C9: from every state, `resetApp` yields no file, no result, no error,
progress 0, and the feature showcase panel visible. -/
theorem resetApp_yields_cleared_state (s : AppState) :
    (resetApp s).file = none ∧ (resetApp s).results = none ∧
    (resetApp s).error = none ∧ (resetApp s).uploadProgress = 0 ∧
    (resetApp s).showFeatures = true :=
  ⟨rfl, rfl, rfl, rfl, rfl⟩

/-! ## C8: validation failure leaves the rest of the state unchanged -/

/-- C8: when validation fails (disallowed extension or oversized file),
`validateAndSetFile` sets only the error message: the selected file, the
stored result, the feature-panel visibility, and all remaining state
fields are exactly as before the call. -/
theorem validateAndSetFile_failure_frame (f : FileInfo) (s : AppState)
    (h : fileExtension f.name ∉ allowedTypes ∨ f.size > maxSize) :
    (validateAndSetFile f s).file = s.file ∧
    (validateAndSetFile f s).results = s.results ∧
    (validateAndSetFile f s).showFeatures = s.showFeatures ∧
    (validateAndSetFile f s).loading = s.loading ∧
    (validateAndSetFile f s).uploadProgress = s.uploadProgress ∧
    (validateAndSetFile f s).isDragging = s.isDragging ∧
    (validateAndSetFile f s).error.isSome = true := by
  unfold validateAndSetFile
  by_cases hext : fileExtension f.name ∈ allowedTypes
  · rcases h with h | h
    · exact absurd hext h
    · simp [hext, h]
  · simp [hext]

/-- Witness for C8 at a concrete oversized-and-misnamed input. -/
theorem validateAndSetFile_failure_frame_witness :
    (fileExtension "notes.exe" ∉ allowedTypes ∨ (1000 : Nat) > maxSize) ∧
    (validateAndSetFile ⟨"notes.exe", 1000⟩ initialAppState).file =
      initialAppState.file ∧
    (validateAndSetFile ⟨"notes.exe", 1000⟩ initialAppState).error.isSome =
      true :=
  have h : fileExtension "notes.exe" ∉ allowedTypes ∨ (1000 : Nat) > maxSize :=
    Or.inl (by decide)
  have hmain := validateAndSetFile_failure_frame ⟨"notes.exe", 1000⟩
    initialAppState h
  ⟨h, hmain.1, hmain.2.2.2.2.2.2⟩

/-! ## C3: oversized files -/

/-- C3 counterexample: an oversized file whose extension is disallowed is
rejected with the invalid-type message, not the oversized message, so the
oversized message is not set for every file above the size bound. -/
theorem oversized_file_with_bad_extension_message :
    (52428801 : Nat) > maxSize ∧
    (validateAndSetFile ⟨"big.exe", 52428801⟩ initialAppState).error =
      some invalidTypeMsg ∧
    invalidTypeMsg ≠ oversizedMsg := by
  refine ⟨by decide, by decide, by decide⟩

/-- C3 amended: every file above 52,428,800 bytes is rejected (the stored
file is unchanged); the oversized message is set when its extension is in
the allow-list, and the invalid-type message is set when it is not. -/
theorem oversized_file_rejected (f : FileInfo) (s : AppState)
    (h : f.size > 52428800) :
    (validateAndSetFile f s).file = s.file ∧
    (validateAndSetFile f s).results = s.results ∧
    (fileExtension f.name ∈ allowedTypes →
      (validateAndSetFile f s).error = some oversizedMsg) ∧
    (fileExtension f.name ∉ allowedTypes →
      (validateAndSetFile f s).error = some invalidTypeMsg) := by
  have hmax : f.size > maxSize := h
  unfold validateAndSetFile
  by_cases hext : fileExtension f.name ∈ allowedTypes
  · simp [hext, hmax]
  · simp [hext]

/-- Witness for C3 (amended) at two concrete oversized inputs, one with an
allowed extension and one without. -/
theorem oversized_file_rejected_witness :
    ((52428801 : Nat) > 52428800 ∧
     fileExtension "big.pdf" ∈ allowedTypes ∧
     (validateAndSetFile ⟨"big.pdf", 52428801⟩ initialAppState).error =
       some oversizedMsg) ∧
    (fileExtension "big.exe" ∉ allowedTypes ∧
     (validateAndSetFile ⟨"big.exe", 52428801⟩ initialAppState).error =
       some invalidTypeMsg) :=
  ⟨⟨by decide, by decide,
    (oversized_file_rejected ⟨"big.pdf", 52428801⟩ initialAppState
      (by decide)).2.2.1 (by decide)⟩,
   ⟨by decide,
    (oversized_file_rejected ⟨"big.exe", 52428801⟩ initialAppState
      (by decide)).2.2.2 (by decide)⟩⟩

/-! ## C5: failure path error handling -/

/-- C5 counterexample: when the error response carries a `detail` field
holding the empty string, the error state is set to the generic message,
not to the provided detail (the source uses JavaScript `||`, which treats
the empty string as absent). -/
theorem empty_detail_yields_generic_message :
    (analyzeSettle (.error (some "")) ⟨initialAppState, true⟩).app.error =
      some genericFailureMsg ∧
    genericFailureMsg ≠ "" := by
  refine ⟨rfl, by decide⟩

/-- C5 amended: on a failed analysis call, the error state is set to the
backend `detail` when that is present and non-empty, and to the generic
failure message when it is absent or empty; the stored result is unchanged
in every case. -/
theorem analyze_failure_error_and_results (s : TimedState) (d : String)
    (detail : Option String) :
    (analyzeSettle (.error detail) s).app.results = s.app.results ∧
    (d ≠ "" →
      (analyzeSettle (.error (some d)) s).app.error = some d) ∧
    (analyzeSettle (.error none) s).app.error = some genericFailureMsg ∧
    (analyzeSettle (.error (some "")) s).app.error = some genericFailureMsg := by
  refine ⟨rfl, ?_, rfl, rfl⟩
  intro hd
  show some (analysisErrorMessage (some d)) = some d
  simp [analysisErrorMessage, hd]

/-- Witness for C5 (amended) at a concrete non-empty backend detail. -/
theorem analyze_failure_error_and_results_witness :
    ("File is corrupted" : String) ≠ "" ∧
    (analyzeSettle (.error (some "File is corrupted"))
        ⟨initialAppState, true⟩).app.error = some "File is corrupted" :=
  ⟨by decide,
   (analyze_failure_error_and_results ⟨initialAppState, true⟩
      "File is corrupted" none).2.1 (by decide)⟩

/-! ## C2: progress timer cancellation -/

/-- C2 counterexample: after a failed request settles, the interval timer
is still scheduled — the `catch` path never calls `clearInterval`, so a
periodic callback remains after the request completes. -/
theorem timer_still_scheduled_after_failure :
    (analyzeSettle (.error none)
        (analyzeStart ⟨initialAppState, false⟩)).timerActive = true := rfl

/-- A cleared interval timer fires no more. -/
theorem progressTick_inactive (s : TimedState) (h : s.timerActive = false) :
    progressTick s = s := by
  simp [progressTick, h]

/-- One firing of a scheduled timer at progress 90 or above: clear the
interval and hold at 90. -/
theorem progressTick_active_high (s : TimedState) (hA : s.timerActive = true)
    (hp : 90 ≤ s.app.uploadProgress) :
    progressTick s =
      { app := { s.app with uploadProgress := 90 }, timerActive := false } := by
  simp [progressTick, hA, hp]

/-- One firing of a scheduled timer below progress 90: add 10. -/
theorem progressTick_active_low (s : TimedState) (hA : s.timerActive = true)
    (hp : ¬ 90 ≤ s.app.uploadProgress) :
    progressTick s =
      { s with app := { s.app with
          uploadProgress := s.app.uploadProgress + 10 } } := by
  simp [progressTick, hA, hp]

/-- Iterating the timer callback on a cleared timer changes nothing. -/
theorem progressTick_iterate_inactive (n : Nat) (s : TimedState)
    (h : s.timerActive = false) : progressTick^[n] s = s := by
  induction n with
  | zero => rfl
  | succ k ih =>
      rw [Function.iterate_succ_apply, progressTick_inactive s h, ih]

/-- Once the progress would reach 90 within `k` further firings, the timer
callback clears its own interval by firing `k + 1`. -/
theorem progressTick_self_cancel (k : Nat) : ∀ s : TimedState,
    90 ≤ s.app.uploadProgress + 10 * k →
    (progressTick^[k + 1] s).timerActive = false := by
  induction k with
  | zero =>
      intro s h
      rw [Function.iterate_one]
      cases hA : s.timerActive
      · rw [progressTick_inactive s hA]
        exact hA
      · rw [progressTick_active_high s hA (by omega)]
  | succ k ih =>
      intro s h
      rw [Function.iterate_succ_apply]
      cases hA : s.timerActive
      · rw [progressTick_inactive s hA,
            progressTick_iterate_inactive (k + 1) s hA]
        exact hA
      · by_cases hp : 90 ≤ s.app.uploadProgress
        · rw [progressTick_active_high s hA hp,
              progressTick_iterate_inactive (k + 1) _ rfl]
        · rw [progressTick_active_low s hA hp]
          exact ih _ (show 90 ≤ s.app.uploadProgress + 10 + 10 * k by omega)

/-- C2 amended: on a successful settle the interval is cleared immediately;
on a failed settle the handler does not touch the timer (it stays exactly
as it was), and the callback self-cancels once progress reaches 90 — at
most 10 further firings after the failure settle. -/
theorem timer_cancellation_behavior (s : TimedState) (data : ResultData)
    (detail : Option String) :
    (analyzeSettle (.ok data) s).timerActive = false ∧
    (analyzeSettle (.error detail) s).timerActive = s.timerActive ∧
    (progressTick^[10] (analyzeSettle (.error detail) s)).timerActive = false := by
  refine ⟨rfl, rfl, ?_⟩
  exact progressTick_self_cancel 9 _ (by omega)

/-! ## C4: progress bounds and ordering -/

/-- The timer callback preserves the invariant that progress is a multiple
of 10 and at most 90. -/
theorem progressTick_invariant (s : TimedState)
    (h1 : s.app.uploadProgress ≤ 90) (h2 : s.app.uploadProgress % 10 = 0) :
    (progressTick s).app.uploadProgress ≤ 90 ∧
    (progressTick s).app.uploadProgress % 10 = 0 := by
  cases hA : s.timerActive
  · rw [progressTick_inactive s hA]
    exact ⟨h1, h2⟩
  · by_cases hp : 90 ≤ s.app.uploadProgress
    · rw [progressTick_active_high s hA hp]
      exact ⟨le_refl 90, by simp⟩
    · rw [progressTick_active_low s hA hp]
      constructor
      · show s.app.uploadProgress + 10 ≤ 90
        omega
      · show (s.app.uploadProgress + 10) % 10 = 0
        omega

/-- Progress after any number of timer firings from the start of a request
is a multiple of 10 and at most 90. -/
theorem progress_bounded_during_flight (n : Nat) (s : TimedState) :
    (progressTick^[n] (analyzeStart s)).app.uploadProgress ≤ 90 ∧
    (progressTick^[n] (analyzeStart s)).app.uploadProgress % 10 = 0 := by
  induction n with
  | zero => exact ⟨Nat.zero_le 90, rfl⟩
  | succ k ih =>
      rw [Function.iterate_succ_apply']
      exact progressTick_invariant _ ih.1 ih.2

/-- C4: during an in-flight request the simulated progress never exceeds
90; on a successful response the updates preceding the storing of the
result already set progress to 100, so progress reaches 100 before the
result is stored, and it is still 100 when settlement completes. -/
theorem progress_capped_then_100_before_result (s : TimedState)
    (data : ResultData) (n : Nat) :
    (progressTick^[n] (analyzeStart s)).app.uploadProgress ≤ 90 ∧
    successEvents data =
      preResultEvents ++ [.setResults (some data), .setLoading false] ∧
    (applyEvents preResultEvents s).app.uploadProgress = 100 ∧
    (applyEvents preResultEvents s).app.results = s.app.results ∧
    (analyzeSettle (.ok data) s).app.uploadProgress = 100 ∧
    (analyzeSettle (.ok data) s).app.results = some data :=
  ⟨(progress_bounded_during_flight n s).1, rfl, rfl, rfl, rfl, rfl⟩

/-! ## C6: busy flags cleared on every outcome -/

/-- C6: the `finally` blocks of the two handlers clear the busy flags on
every outcome — after any settlement of the analysis request `loading` is
false, and after any report-download attempt `downloading` is false. -/
theorem busy_flags_cleared_on_completion
    (resp : Except (Option String) ResultData) (s : TimedState)
    (fn : String) (dresp : DownloadResponse) :
    (analyzeSettle resp s).app.loading = false ∧
    (downloadPDF fn dresp).downloading = false := by
  constructor
  · cases resp <;> rfl
  · rcases h : downloadPDFBody fn dresp with emsg | ⟨saves, msg⟩ <;>
      simp [downloadPDF, h]

/-! ## C7: report download -/

/-- C7: a non-ok response and a zero-byte successful response both lead to
a failure alert and no browser save action; a successful non-empty
response triggers exactly one save action named
`analysis_report_<base name>.pdf` (and a success alert). -/
theorem downloadPDF_saves_and_alerts (fn : String) (resp : DownloadResponse) :
    (resp.ok = false →
      (downloadPDF fn resp).saves = [] ∧
      (downloadPDF fn resp).alertMsg =
        "Failed to download PDF: " ++
          ("Server returned " ++ toString resp.status ++ ": " ++
            resp.bodyText)) ∧
    (resp.ok = true → resp.blobSize = 0 →
      (downloadPDF fn resp).saves = [] ∧
      (downloadPDF fn resp).alertMsg =
        "Failed to download PDF: " ++ "Generated PDF is empty") ∧
    (resp.ok = true → resp.blobSize ≠ 0 →
      (downloadPDF fn resp).saves = [reportFileName fn] ∧
      (downloadPDF fn resp).alertMsg = "PDF report downloaded successfully!") := by
  refine ⟨?_, ?_, ?_⟩
  · intro h
    simp [downloadPDF, downloadPDFBody, h]
  · intro h1 h2
    simp [downloadPDF, downloadPDFBody, h1, h2]
  · intro h1 h2
    simp [downloadPDF, downloadPDFBody, h1, h2]

/-- Witness for C7 at three concrete responses: a server failure, a
zero-byte success, and a non-empty success. -/
theorem downloadPDF_saves_and_alerts_witness :
    ((downloadPDF "paper.pdf" ⟨false, 500, "boom", 0⟩).saves = []) ∧
    ((downloadPDF "paper.pdf" ⟨true, 200, "", 0⟩).saves = []) ∧
    ((downloadPDF "paper.pdf" ⟨true, 200, "", 2048⟩).saves =
      ["analysis_report_paper.pdf"]) := by
  refine ⟨?_, ?_, ?_⟩
  · exact ((downloadPDF_saves_and_alerts "paper.pdf"
      ⟨false, 500, "boom", 0⟩).1 rfl).1
  · exact ((downloadPDF_saves_and_alerts "paper.pdf"
      ⟨true, 200, "", 0⟩).2.1 rfl rfl).1
  · have h := ((downloadPDF_saves_and_alerts "paper.pdf"
      ⟨true, 200, "", 2048⟩).2.2 rfl (by decide)).1
    exact h.trans (by decide)

/-! ## C10: dotless file names -/

/-- C10 counterexample: a file whose entire name is `pdf` passes extension
validation, yet is not accepted when it is oversized — the size check still
rejects it with the oversized message. -/
theorem dotless_pdf_name_rejected_when_oversized :
    ('.' ∉ ("pdf" : String).data) ∧
    (validateAndSetFile ⟨"pdf", 52428801⟩ initialAppState).file = none ∧
    (validateAndSetFile ⟨"pdf", 52428801⟩ initialAppState).error =
      some oversizedMsg := by
  refine ⟨by decide, by decide, by decide⟩

/-- C10 amended: for a file whose name contains no dot, the extension is a
dot prepended to the whole lowercased name; a dotless name lowercasing to
`pdf`, `docx` or `txt` passes extension validation and — provided the file
also passes the size check — is accepted; every other dotless name is
rejected with the invalid-type message. -/
theorem dotless_extension_behavior (f : FileInfo) (s : AppState)
    (hdot : '.' ∉ f.name.data) :
    fileExtension f.name = "." ++ toLowerStr f.name ∧
    (toLowerStr f.name ∈ ["pdf", "docx", "txt"] → f.size ≤ maxSize →
      (validateAndSetFile f s).file = some f ∧
      (validateAndSetFile f s).error = none) ∧
    (toLowerStr f.name ∉ ["pdf", "docx", "txt"] →
      (validateAndSetFile f s).file = s.file ∧
      (validateAndSetFile f s).error = some invalidTypeMsg) := by
  have hext : fileExtension f.name = "." ++ toLowerStr f.name := by
    unfold fileExtension
    rw [lastComponent_of_no_dot f.name hdot]
  refine ⟨hext, ?_, ?_⟩
  · intro hmem hsize
    have hmem' : fileExtension f.name ∈ allowedTypes := by
      rw [hext]
      exact (dot_append_mem_allowedTypes _).2 hmem
    have hns : ¬ f.size > maxSize := by omega
    simp [validateAndSetFile, hmem', hns]
  · intro hnmem
    have hmem' : fileExtension f.name ∉ allowedTypes := by
      rw [hext]
      intro hc
      exact hnmem ((dot_append_mem_allowedTypes _).1 hc)
    simp [validateAndSetFile, hmem']

/-- Witness for C10 (amended) at two concrete dotless names, one in the
allow-list up to case and one not. -/
theorem dotless_extension_behavior_witness :
    ('.' ∉ ("PDF" : String).data ∧
     toLowerStr "PDF" ∈ ["pdf", "docx", "txt"] ∧
     (100 : Nat) ≤ maxSize ∧
     (validateAndSetFile ⟨"PDF", 100⟩ initialAppState).file =
       some ⟨"PDF", 100⟩) ∧
    ('.' ∉ ("readme" : String).data ∧
     toLowerStr "readme" ∉ ["pdf", "docx", "txt"] ∧
     (validateAndSetFile ⟨"readme", 100⟩ initialAppState).error =
       some invalidTypeMsg) := by
  refine ⟨⟨by decide, by decide, by decide, ?_⟩, by decide, by decide, ?_⟩
  · exact ((dotless_extension_behavior ⟨"PDF", 100⟩ initialAppState
      (by decide)).2.1 (by decide) (by decide)).1
  · exact ((dotless_extension_behavior ⟨"readme", 100⟩ initialAppState
      (by decide)).2.2 (by decide)).2

/-! ## C1: rendering with missing sub-objects -/

/-- C1 counterexample: the fully-populated result renders, but removing
`statistics` alone makes rendering raise an error — the dashboard
dereferences it unconditionally, so missing sub-objects are not all
skipped silently. -/
theorem missing_statistics_raises_render_error :
    rendersOk (renderResultsDashboard sampleResult) = true ∧
    rendersOk (renderResultsDashboard
      { sampleResult with statistics := none }) = false :=
  ⟨rfl, rfl⟩

/-- C1 amended: rendering completes without an error exactly when the nine
fields `ResultsDashboard` dereferences unconditionally (`statistics`,
`file_info`, `topic_classification`, `contribution_type`,
`methodology_classification`, `sentiment_analysis`, `section_analysis`,
`keywords`, `named_entities`) are all present; the `EnhancedResults`
fields (`summary`, `readability_analysis`, `citations_analysis`,
`research_questions`, `quality_score`), missing or sentinel-flagged, are
skipped silently and never affect rendering success. -/
theorem rendering_fails_iff_dashboard_field_missing (r : ResultData) :
    rendersOk (renderResultsDashboard r) =
      (r.statistics.isSome && r.file_info.isSome &&
       r.topic_classification.isSome && r.contribution_type.isSome &&
       r.methodology_classification.isSome && r.sentiment_analysis.isSome &&
       r.section_analysis.isSome && r.keywords.isSome &&
       r.named_entities.isSome) := by
  obtain ⟨fn, fi, stats, tc, mc, sa, sec, kws, ne, ct, sm, ra, ca, rq, qs, pt⟩ := r
  cases stats <;> cases fi <;> cases tc <;> cases ct <;> cases mc <;>
    cases sa <;> cases sec <;> cases kws <;> cases ne <;> rfl
